import Mathlib

/-!
Shallow embedding of the identity verification and principal provisioning
subsystem of the Pick-Right backend (src/app/core/auth.py), together with the
users table it writes to (src/app/models/user.py).

Conventions used throughout:
* Python `Optional` values become `Option`; a JSON claim that is absent is
  identified with a claim whose value is null (the code reads claims with
  `.get`, which collapses the two on every path modelled here).
* The users table is a list of rows plus a counter supplying fresh primary
  keys; SQLAlchemy `commit` raising `IntegrityError` is modelled by checking
  the unique constraints declared on the model (`external_auth_uid`, `email`,
  `auth_provider_id` — all `unique=True` in src/app/models/user.py) before
  accepting the write.
* Wall-clock time is `Nat` seconds; network and cryptographic outcomes are
  explicit input parameters, so every function is executable.
-/

namespace PickRight

/-- Python truthiness of an optional string: `if x:` is true iff the value is
present and non-empty. -/
def pyTruthy : Option String → Bool
  | none => false
  | some s => s ≠ ""

/-- Python `x or default` for an optional string: `None` and `""` are falsy and
select the default. -/
def pyOrD : Option String → String → String
  | none, d => d
  | some s, d => if s = "" then d else s

/-! ## The users table (src/app/models/user.py)

Columns relevant to this core.  `created_at` and `updated_at` are maintained
by column defaults in the storage layer, not assigned by any code modelled
here, so they are omitted.  `onboarding_preferences` is never touched by
auth.py and is represented together with `onboarding_completed_at` by the
latter alone standing for the onboarding state. -/

structure User where
  id : Nat
  external_auth_uid : String
  external_auth_provider : Option String
  email : Option String
  auth_provider_id : Option String
  onboarding_completed_at : Option Nat
deriving DecidableEq

structure DB where
  rows : List User
  nextId : Nat
deriving DecidableEq

/-- Two distinct rows may never collide on any of the unique columns of the
users table: the primary key `id`, `external_auth_uid`, non-null `email`,
non-null `auth_provider_id`. -/
def distinctRow (a b : User) : Prop :=
  a.id ≠ b.id ∧
  a.external_auth_uid ≠ b.external_auth_uid ∧
  (a.email = none ∨ b.email = none ∨ a.email ≠ b.email) ∧
  (a.auth_provider_id = none ∨ b.auth_provider_id = none ∨
    a.auth_provider_id ≠ b.auth_provider_id)

instance : DecidableRel distinctRow := fun a b => by
  unfold distinctRow; infer_instance

/-- Well-formedness of a database state: the unique constraints hold and the
id counter is ahead of every stored primary key. -/
def DB.wf (db : DB) : Prop :=
  db.rows.Pairwise distinctRow ∧ ∀ r ∈ db.rows, r.id < db.nextId

instance (db : DB) : Decidable db.wf := by
  unfold DB.wf; exact inferInstance

/-- db.query(User).filter(User.external_auth_uid == uid_str).first() -/
def DB.queryByUid (db : DB) (uid : String) : Option User :=
  db.rows.find? fun r => r.external_auth_uid == uid

/-- Whether committing a brand-new row would violate a unique constraint of
the users table (SQLAlchemy raises IntegrityError in that case).  SQL unique
constraints ignore NULLs, hence the `isSome` guards. -/
def insertConflicts (db : DB) (u : User) : Bool :=
  db.rows.any fun r =>
    r.id == u.id ||
    r.external_auth_uid == u.external_auth_uid ||
    (u.email.isSome && r.email == u.email) ||
    (u.auth_provider_id.isSome && r.auth_provider_id == u.auth_provider_id)

/-- Whether committing an update of the row with primary key `u.id` to the new
field values `u` would violate a unique constraint against some other row. -/
def updateConflicts (db : DB) (u : User) : Bool :=
  db.rows.any fun r =>
    r.id != u.id &&
    (r.external_auth_uid == u.external_auth_uid ||
      (u.email.isSome && r.email == u.email) ||
      (u.auth_provider_id.isSome && r.auth_provider_id == u.auth_provider_id))

def DB.insertRow (db : DB) (u : User) : DB :=
  { rows := db.rows ++ [u], nextId := db.nextId + 1 }

def DB.updateRow (db : DB) (u : User) : DB :=
  { db with rows := db.rows.map fun r => if r.id == u.id then u else r }

inductive DbError where
  | integrityError
deriving DecidableEq

/-- Lines 180-187 of auth.py: backfill `email` / `external_auth_provider` on a
row found for the uid, each only when the argument is not None and the stored
value is None; the Bool is `was_updated`. -/
def backfillUser (user : User) (external_auth_provider email : Option String) :
    User × Bool :=
  let e := if email.isSome && user.email.isNone then (email, true)
           else (user.email, false)
  let p := if external_auth_provider.isSome && user.external_auth_provider.isNone then
             (external_auth_provider, true)
           else (user.external_auth_provider, false)
  ({ user with email := e.1, external_auth_provider := p.1 }, e.2 || p.2)

/-- Lines 196-200 of auth.py: the row constructed for a first-time uid.  The
provider defaults through Python `or`, the primary key is generated at insert
time, and no other column is assigned. -/
def newUserFor (db : DB) (external_auth_uid : String)
    (external_auth_provider email : Option String) : User :=
  { id := db.nextId
    external_auth_uid := external_auth_uid
    external_auth_provider := some (pyOrD external_auth_provider "email")
    email := email
    auth_provider_id := none
    onboarding_completed_at := none }

/-- get_or_create_user_for_supabase_uid (auth.py lines 165-212), with the
initial lookup running against the state `dbQ` the caller saw and the
commit / IntegrityError recovery running against the possibly newer state
`dbI` (a concurrent caller may have written between the two; sequential calls
use the same state for both).  On IntegrityError the failed insert is rolled
back, the uid is re-queried, a found row is returned, and otherwise the
original error propagates. -/
def get_or_create_at (dbQ dbI : DB) (external_auth_uid : String)
    (external_auth_provider email : Option String) :
    Except DbError (User × DB) :=
  match dbQ.queryByUid external_auth_uid with
  | some user =>
      let bf := backfillUser user external_auth_provider email
      if bf.2 then
        if updateConflicts dbI bf.1 then .error .integrityError
        else .ok (bf.1, dbI.updateRow bf.1)
      else .ok (user, dbI)
  | none =>
      let user := newUserFor dbI external_auth_uid external_auth_provider email
      if insertConflicts dbI user then
        match dbI.queryByUid external_auth_uid with
        | some winner => .ok (winner, dbI)
        | none => .error .integrityError
      else .ok (user, dbI.insertRow user)

/-- The sequential (single-caller) reading of
get_or_create_user_for_supabase_uid: query and commit see the same state. -/
def get_or_create_user_for_supabase_uid (db : DB) (external_auth_uid : String)
    (external_auth_provider email : Option String) :
    Except DbError (User × DB) :=
  get_or_create_at db db external_auth_uid external_auth_provider email

/-- No row other than possibly one holding the given uid carries the given
non-null email (the legacy unique `email` column would reject the write
otherwise).  This is the precondition under which the provisioning paths of
auth.py cannot hit the email unique constraint. -/
def noEmailClash (db : DB) (uid : String) (email : Option String) : Prop :=
  ∀ r ∈ db.rows, r.external_auth_uid ≠ uid → email.isSome → r.email ≠ email

instance (db : DB) (uid : String) (email : Option String) :
    Decidable (noEmailClash db uid email) := by
  unfold noEmailClash; exact inferInstance

/-- Helper to state that an operation did not fail, without binders. -/
def isOkB {ε α : Type} : Except ε α → Bool
  | .ok _ => true
  | .error _ => false

/-! ## Failure classification

auth.py raises bare `HTTPException(status, detail)` values; the spec assigns
each raise site a name (`UnknownKeyId`, `Expired`, ...) that in the code is
distinguishable only through the log line emitted next to the raise.  The
model keeps that internal classification in `kind` alongside the observable
response, and `AuthError.response` is the projection a caller can see. -/

inductive VerifyFailKind where
  | jwksHttpError
  | jwksMalformed
  | missingToken
  | malformedHeader
  | missingKid
  | unknownKid
  | keyConstructError
  | algorithmMismatch
  | unsupportedAlgorithm
  | expired
  | badAudience
  | badIssuer
  | invalidSignature
  | missingSubject
  | invalidSubject
deriving DecidableEq

structure AuthError where
  kind : VerifyFailKind
  status : Nat
  detail : String
deriving DecidableEq

/-- What the HTTP boundary shows for a failure: status code and body. -/
def AuthError.response (e : AuthError) : Nat × String := (e.status, e.detail)

/-! ## KeySetCache (auth.py lines 32-92, fetch_jwks) -/

/-- One JWK entry as consumed by auth.py: only `kid` and `alg` are read
(`key material` is opaque to the control flow being verified). -/
structure Jwk where
  kid : Option String
  alg : Option String
deriving DecidableEq

/-- Outcome of one attempted HTTP GET of the JWKS endpoint.
`httpError` is the `httpx.HTTPError` path (network failure or error status);
`malformed` is any other in-try failure: undecodable JSON or a body that is
not a dict carrying a "keys" field (the explicit ValueError at line 65). -/
inductive FetchOutcome where
  | httpError
  | malformed
  | ok (keys : List Jwk)
deriving DecidableEq

/-- The module-level cache: `_jwks_cache` (the keys of the cached document,
`none` at import time) and `_jwks_cache_time` (0.0 at import time). -/
structure JwksState where
  jwksCache : Option (List Jwk)
  jwksCacheTime : Nat
deriving DecidableEq

def JWKS_CACHE_TTL : Nat := 600

structure FetchResult where
  result : Except AuthError (List Jwk)
  state : JwksState
  didNetworkFetch : Bool

/-- The refresh half of fetch_jwks (lines 56-92): runs after the cache check
has failed, attempts the network fetch, updates the cache only on success,
and on failure serves the stale cache when one exists, else raises 503. -/
def fetch_jwks_refresh (st : JwksState) (now : Nat) (outcome : FetchOutcome) :
    FetchResult :=
  match outcome with
  | .ok keys =>
      { result := .ok keys
        state := { jwksCache := some keys, jwksCacheTime := now }
        didNetworkFetch := true }
  | .httpError =>
      match st.jwksCache with
      | some cached => { result := .ok cached, state := st, didNetworkFetch := true }
      | none =>
          { result := .error
              ⟨.jwksHttpError, 503, "Unable to verify token: JWKS endpoint unavailable"⟩
            state := st, didNetworkFetch := true }
  | .malformed =>
      match st.jwksCache with
      | some cached => { result := .ok cached, state := st, didNetworkFetch := true }
      | none =>
          { result := .error
              ⟨.jwksMalformed, 503, "Unable to verify token: JWKS fetch failed"⟩
            state := st, didNetworkFetch := true }

/-- fetch_jwks (lines 38-92): serve the cache when it exists and is younger
than the TTL, otherwise refresh. -/
def fetch_jwks (st : JwksState) (now : Nat) (outcome : FetchOutcome) :
    FetchResult :=
  match st.jwksCache with
  | some cached =>
      if now - st.jwksCacheTime < JWKS_CACHE_TTL then
        { result := .ok cached, state := st, didNetworkFetch := false }
      else fetch_jwks_refresh st now outcome
  | none => fetch_jwks_refresh st now outcome

/-! ## TokenVerifier (auth.py lines 95-141 and 215-316) -/

/-- The two fields of the unverified JWT header that the code reads. -/
structure TokenHeader where
  kid : Option String
  alg : Option String
deriving DecidableEq

/-- The claims of a verified token that the identity layer reads.
`user_metadata_provider` is `some p` when the nested user_metadata dict has a
"provider" key with string value `p` (the code tests key membership there). -/
structure TokenClaims where
  sub : Option String
  email : Option String
  app_metadata_provider : Option String
  user_metadata_provider : Option String
deriving DecidableEq

/-- Outcome of the cryptographic jose `jwt.decode` call (signature, audience,
issuer and expiry checks), abstracted as an input: the mathematics of the
signature scheme is outside the embedding. -/
inductive DecodeOutcome where
  | ok (payload : TokenClaims)
  | expiredSignature
  | badAudience
  | badIssuer
  | invalidSignature
deriving DecidableEq

/-- The aspects of one verification call that depend on the raw token bytes
and the crypto library: the parsed header (`none` when
`jwt.get_unverified_header` itself raises), whether `jwk.construct` succeeds
on the matched key, and the decode outcome. -/
structure VerifyInput where
  header : Option TokenHeader
  keyConstructOk : Bool
  decode : DecodeOutcome
deriving DecidableEq

/-- get_signing_key (lines 95-141): read `kid` from the unverified header and
select the matching JWKS entry. -/
def get_signing_key (header : Option TokenHeader) (keys : List Jwk) :
    Except AuthError Jwk :=
  match header with
  | none => .error ⟨.malformedHeader, 401, "Token verification failed"⟩
  | some h =>
      if !pyTruthy h.kid then
        .error ⟨.missingKid, 401, "Token verification failed"⟩
      else
        match keys.find? (fun key => key.kid == h.kid) with
        | some key => .ok key
        | none => .error ⟨.unknownKid, 401, "Token verification failed"⟩

/-- Line 252: `algorithm = header_alg or jwk_alg or "ES256"`. -/
def effective_algorithm (header_alg jwk_alg : Option String) : String :=
  pyOrD header_alg (pyOrD jwk_alg "ES256")

/-- Line 255: `if header_alg and jwk_alg and header_alg != jwk_alg`. -/
def algs_conflict (header_alg jwk_alg : Option String) : Bool :=
  pyTruthy header_alg && pyTruthy jwk_alg && header_alg != jwk_alg

def supported_algorithms : List String := ["ES256", "RS256"]

/-- verify_supabase_token after the JWKS fetch (lines 233-307), given the
fetched key list.  The Bool records whether the `jwt.decode` call — the
signature verification — was reached. -/
def verify_with_keys (inp : VerifyInput) (keys : List Jwk) :
    Except AuthError TokenClaims × Bool :=
  match get_signing_key inp.header keys with
  | .error e => (.error e, false)
  | .ok jwkKey =>
      if !inp.keyConstructOk then
        (.error ⟨.keyConstructError, 401, "Token verification failed"⟩, false)
      else
        let header_alg := (inp.header.getD ⟨none, none⟩).alg
        let jwk_alg := jwkKey.alg
        if algs_conflict header_alg jwk_alg then
          (.error ⟨.algorithmMismatch, 401, "Token verification failed"⟩, false)
        else if !supported_algorithms.contains (effective_algorithm header_alg jwk_alg) then
          (.error ⟨.unsupportedAlgorithm, 401, "Token verification failed"⟩, false)
        else
          match inp.decode with
          | .ok payload => (.ok payload, true)
          | .expiredSignature =>
              (.error ⟨.expired, 401, "Token verification failed"⟩, true)
          | .badAudience =>
              (.error ⟨.badAudience, 401, "Token verification failed"⟩, true)
          | .badIssuer =>
              (.error ⟨.badIssuer, 401, "Token verification failed"⟩, true)
          | .invalidSignature =>
              (.error ⟨.invalidSignature, 401, "Token verification failed"⟩, true)

/-- verify_supabase_token (lines 215-316): fetch the JWKS through the cache,
then verify against the fetched keys.  Returns the verification result, the
cache state after the call, and whether signature verification was reached. -/
def verify_supabase_token (inp : VerifyInput) (st : JwksState) (now : Nat)
    (outcome : FetchOutcome) :
    Except AuthError TokenClaims × JwksState × Bool :=
  match fetch_jwks st now outcome with
  | ⟨.error e, st1, _⟩ => (.error e, st1, false)
  | ⟨.ok keys, st1, _⟩ =>
      let r := verify_with_keys inp keys
      (r.1, st1, r.2)

/-! ## IdentityResolver (auth.py lines 319-380, get_current_identity) -/

structure Identity where
  provider : String
  uid : String
  email : Option String
deriving DecidableEq

/-- Lines 349-380 of get_current_identity: derive an Identity from verified
claims.  `sub` is rejected when falsy; the provider is `app_metadata.provider`
when truthy, else `user_metadata["provider"]` when that key exists, else the
literal "email". -/
def identity_from_claims (claims : TokenClaims) : Except AuthError Identity :=
  if !pyTruthy claims.sub then
    .error ⟨.missingSubject, 401, "Token missing subject (sub) claim"⟩
  else
    let provider :=
      if pyTruthy claims.app_metadata_provider then claims.app_metadata_provider.getD ""
      else
        match claims.user_metadata_provider with
        | some p => p
        | none => "email"
    .ok { provider := provider, uid := claims.sub.getD "", email := claims.email }

/-- get_current_identity (lines 319-380): reject an empty bearer token, verify
it, then resolve the identity from the verified claims. -/
def get_current_identity (token : String) (inp : VerifyInput) (st : JwksState)
    (now : Nat) (outcome : FetchOutcome) : Except AuthError Identity × JwksState :=
  if token = "" then (.error ⟨.missingToken, 401, "Missing token"⟩, st)
  else
    match verify_supabase_token inp st now outcome with
    | (.error e, st1, _) => (.error e, st1)
    | (.ok claims, st1, _) => (identity_from_claims claims, st1)

/-! ## UUID normalization (auth.py lines 151-162) and optional auth
(lines 383-405) -/

/-- Hex digits accepted by `int(s, 16)` on a single character. -/
def isHexChar (c : Char) : Bool :=
  c.isDigit || (('a' ≤ c) && (c ≤ 'f')) || (('A' ≤ c) && (c ≤ 'F'))

/-- If `pat` is an initial segment of `xs`, the remainder after it. -/
def dropPat : List Char → List Char → Option (List Char)
  | [], xs => some xs
  | _ :: _, [] => none
  | p :: ps, x :: xs => if x = p then dropPat ps xs else none

/-- Python `s.replace(pat, "")`: delete every non-overlapping occurrence of
`pat`, scanning left to right.  Driven by fuel, which `length + 1` always
suffices for when `pat` is non-empty. -/
def removeOccursFuel : Nat → List Char → List Char → List Char
  | 0, _, xs => xs
  | _ + 1, _, [] => []
  | fuel + 1, pat, x :: rest =>
      match dropPat pat (x :: rest) with
      | some rem => removeOccursFuel fuel pat rem
      | none => x :: removeOccursFuel fuel pat rest

def removeOccurs (pat : List Char) (xs : List Char) : List Char :=
  removeOccursFuel (xs.length + 1) pat xs

/-- Python `s.strip(chars)` for the brace pair: drop leading and trailing
characters belonging to the set. -/
def stripBraceChars (xs : List Char) : List Char :=
  ((xs.dropWhile fun c => c = '{' || c = '}').reverse.dropWhile
    fun c => c = '{' || c = '}').reverse

/-- Format 32 hex digits the way `str(uuid.UUID(...))` does: lowercase,
grouped 8-4-4-4-12. -/
def uuidFormat (cs : List Char) : String :=
  let l := cs.map Char.toLower
  String.mk (l.take 8) ++ "-" ++ String.mk ((l.drop 8).take 4) ++ "-" ++
    String.mk ((l.drop 12).take 4) ++ "-" ++ String.mk ((l.drop 16).take 4) ++ "-" ++
    String.mk (l.drop 20)

/-- The `uuid.UUID(str(uid))` round trip of _normalize_supabase_uid: CPython
deletes "urn:" and "uuid:" occurrences, strips braces from the ends, deletes
hyphens, and requires the 32-character result to parse as hexadecimal (the
extra liberality of `int(_, 16)` toward underscores, signs and whitespace is
not modelled: such inputs are treated as invalid).  `none` is the
ValueError path. -/
def pyUuidCanon (s : String) : Option String :=
  let h := removeOccurs "uuid:".toList (removeOccurs "urn:".toList s.toList)
  let h := (stripBraceChars h).filter fun c => c ≠ '-'
  if h.length = 32 && h.all isHexChar then some (uuidFormat h) else none

/-- _normalize_supabase_uid (lines 151-162): normalize the JWT sub to the
canonical uuid string, raising 401 on an unparsable value. -/
def _normalize_supabase_uid (uid : String) : Except AuthError String :=
  match pyUuidCanon uid with
  | some s => .ok s
  | none => .error ⟨.invalidSubject, 401, "Invalid subject (sub) claim in token"⟩

/-- get_current_user_optional (lines 383-405): absent or empty credentials,
any verification failure, a falsy sub, or an unparsable sub all yield `none`;
otherwise the user row found for the normalized sub (possibly `none`).  Every
HTTPException of the inner block is caught and mapped to `none`, and the
database is only queried, never written. -/
def get_current_user_optional (credentials : Option String) (inp : VerifyInput)
    (st : JwksState) (now : Nat) (outcome : FetchOutcome) (db : DB) : Option User :=
  match credentials with
  | none => none
  | some token =>
      if token = "" then none
      else
        match (verify_supabase_token inp st now outcome).1 with
        | .error _ => none
        | .ok claims =>
            if !pyTruthy claims.sub then none
            else
              match _normalize_supabase_uid (claims.sub.getD "") with
              | .error _ => none
              | .ok uidStr => db.queryByUid uidStr

/-- The six client-caused failure modes that the rejection-set property
compares pairwise: unknown kid, wrong audience, wrong issuer, expired exp,
header/key algorithm conflict, algorithm outside the allow-list. -/
def c7_client_kinds : List VerifyFailKind :=
  [.unknownKid, .badAudience, .badIssuer, .expired,
    .algorithmMismatch, .unsupportedAlgorithm]

/-! ## Supporting lemmas -/

theorem get_signing_key_error (header : Option TokenHeader) (keys : List Jwk)
    (e : AuthError) (h : get_signing_key header keys = .error e) :
    e.status = 401 ∧ e.detail = "Token verification failed" := by
  unfold get_signing_key at h
  split at h
  · simp only [Except.error.injEq] at h
    subst h; exact ⟨rfl, rfl⟩
  · split at h
    · simp only [Except.error.injEq] at h
      subst h; exact ⟨rfl, rfl⟩
    · split at h
      · exact absurd h (by simp)
      · simp only [Except.error.injEq] at h
        subst h; exact ⟨rfl, rfl⟩

theorem verify_with_keys_error_response (inp : VerifyInput) (keys : List Jwk)
    (e : AuthError) (h : (verify_with_keys inp keys).1 = .error e) :
    e.response = (401, "Token verification failed") := by
  unfold verify_with_keys at h
  split at h
  next e1 heq =>
    simp only [Except.error.injEq] at h
    subst h
    obtain ⟨h401, hdet⟩ := get_signing_key_error _ _ _ heq
    simp [AuthError.response, h401, hdet]
  next jwkKey heq =>
    dsimp only at h
    repeat' split at h
    all_goals simp_all [AuthError.response]
    all_goals (subst h; exact ⟨rfl, rfl⟩)

theorem fetch_jwks_refresh_error_kind (st : JwksState) (now : Nat)
    (o : FetchOutcome) (e : AuthError)
    (h : (fetch_jwks_refresh st now o).result = .error e) :
    e.kind = .jwksHttpError ∨ e.kind = .jwksMalformed := by
  cases o with
  | ok keys => exact absurd h (by simp [fetch_jwks_refresh])
  | httpError =>
      cases hc : st.jwksCache <;> simp [fetch_jwks_refresh, hc] at h
      · exact Or.inl (by rw [← h])
  | malformed =>
      cases hc : st.jwksCache <;> simp [fetch_jwks_refresh, hc] at h
      · exact Or.inr (by rw [← h])

theorem fetch_jwks_error_kind (st : JwksState) (now : Nat)
    (o : FetchOutcome) (e : AuthError)
    (h : (fetch_jwks st now o).result = .error e) :
    e.kind = .jwksHttpError ∨ e.kind = .jwksMalformed := by
  unfold fetch_jwks at h
  split at h
  · split at h
    · exact absurd h (by simp)
    · exact fetch_jwks_refresh_error_kind _ _ _ _ h
  · exact fetch_jwks_refresh_error_kind _ _ _ _ h

/-- Every client-caused verification failure surfaces as the same response. -/
theorem verify_error_response (inp : VerifyInput) (st : JwksState) (now : Nat)
    (o : FetchOutcome) (e : AuthError)
    (h : (verify_supabase_token inp st now o).1 = .error e)
    (hk : e.kind ∈ c7_client_kinds) :
    e.response = (401, "Token verification failed") := by
  unfold verify_supabase_token at h
  split at h
  next e1 st1 b heq =>
    simp only [Except.error.injEq] at h
    subst h
    have hkind := fetch_jwks_error_kind st now o e1 (by rw [heq])
    rcases hkind with hkind | hkind <;>
      · rw [hkind] at hk
        exact absurd hk (by decide)
  next keys st1 b heq =>
    exact verify_with_keys_error_response inp keys e h

theorem fetch_jwks_refresh_fetches (st : JwksState) (now : Nat) (o : FetchOutcome) :
    (fetch_jwks_refresh st now o).didNetworkFetch = true := by
  cases o with
  | ok keys => rfl
  | httpError => cases h : st.jwksCache <;> simp [fetch_jwks_refresh, h]
  | malformed => cases h : st.jwksCache <;> simp [fetch_jwks_refresh, h]

theorem fetch_jwks_refresh_failure_state (st : JwksState) (now : Nat) :
    (fetch_jwks_refresh st now .httpError).state = st ∧
    (fetch_jwks_refresh st now .malformed).state = st := by
  cases h : st.jwksCache <;> simp [fetch_jwks_refresh, h]

/-! ## Claim C7 -/

/-- C7: any two verification calls failing for two different reasons among
the six client-caused failure modes of `c7_client_kinds` produce identical
responses at the boundary: the same status code and the same body, so the
caller cannot distinguish the failure modes. -/
theorem verify_failures_indistinguishable
    (inp1 inp2 : VerifyInput) (st1 st2 : JwksState) (t1 t2 : Nat)
    (o1 o2 : FetchOutcome) (e1 e2 : AuthError)
    (h1 : (verify_supabase_token inp1 st1 t1 o1).1 = .error e1)
    (hk1 : e1.kind ∈ c7_client_kinds)
    (h2 : (verify_supabase_token inp2 st2 t2 o2).1 = .error e2)
    (hk2 : e2.kind ∈ c7_client_kinds)
    (hne : e1.kind ≠ e2.kind) :
    e1.response = e2.response := by
  rw [verify_error_response inp1 st1 t1 o1 e1 h1 hk1,
    verify_error_response inp2 st2 t2 o2 e2 h2 hk2]

theorem verify_failures_indistinguishable_witness :
    AuthError.response ⟨.unknownKid, 401, "Token verification failed"⟩ =
      AuthError.response ⟨.expired, 401, "Token verification failed"⟩ :=
  verify_failures_indistinguishable
    ⟨some ⟨some "k2", some "ES256"⟩, true, .ok ⟨some "s", none, none, none⟩⟩
    ⟨some ⟨some "k1", some "ES256"⟩, true, .expiredSignature⟩
    ⟨some [⟨some "k1", some "ES256"⟩], 0⟩ ⟨some [⟨some "k1", some "ES256"⟩], 0⟩
    0 0 .httpError .httpError
    ⟨.unknownKid, 401, "Token verification failed"⟩
    ⟨.expired, 401, "Token verification failed"⟩
    rfl (by decide) rfl (by decide) (by decide)

/-! ## Claim C6 -/

/-- C6 is corrected by this counterexample: a token whose kid matches a key
while the header declares HS256 and the key declares ES256 has an effective
algorithm outside the allow-list, yet verification fails at the earlier
algorithm-mismatch check (line 255) rather than with UnsupportedAlgorithm
(line 264). -/
theorem verify_alg_allowlist_cex :
    supported_algorithms.contains
      (effective_algorithm (some "HS256") (some "ES256")) = false ∧
    verify_with_keys ⟨some ⟨some "k1", some "HS256"⟩, true, .invalidSignature⟩
      [⟨some "k1", some "ES256"⟩] =
      (.error ⟨.algorithmMismatch, 401, "Token verification failed"⟩, false) ∧
    VerifyFailKind.algorithmMismatch ≠ .unsupportedAlgorithm :=
  ⟨by decide, rfl, by decide⟩

/-- C6 amended: for a token whose kid matches a key of the current KeySet and
whose key material is constructible, the effective algorithm is
`header alg or key alg or ES256` (Python truthiness), and when it lies
outside the {ES256, RS256} allow-list verification fails without reaching
signature verification — classified UnsupportedAlgorithm, except that a
conflict between a truthy header algorithm and a truthy key algorithm fails
first as AlgorithmMismatch. -/
theorem verify_alg_allowlist (inp : VerifyInput) (keys : List Jwk)
    (h : TokenHeader) (key : Jwk)
    (hh : inp.header = some h)
    (hk : get_signing_key (some h) keys = .ok key)
    (hc : inp.keyConstructOk = true)
    (halg : supported_algorithms.contains (effective_algorithm h.alg key.alg) = false) :
    (algs_conflict h.alg key.alg = false →
      verify_with_keys inp keys =
        (.error ⟨.unsupportedAlgorithm, 401, "Token verification failed"⟩, false)) ∧
    (algs_conflict h.alg key.alg = true →
      verify_with_keys inp keys =
        (.error ⟨.algorithmMismatch, 401, "Token verification failed"⟩, false)) ∧
    (verify_with_keys inp keys).2 = false := by
  have hbase : ∀ hcf : Bool, algs_conflict h.alg key.alg = hcf →
      verify_with_keys inp keys =
        (if hcf then (.error ⟨.algorithmMismatch, 401, "Token verification failed"⟩, false)
         else (.error ⟨.unsupportedAlgorithm, 401, "Token verification failed"⟩, false)) := by
    intro hcf hcfe
    unfold verify_with_keys
    rw [hh, hk, hc]
    cases hcf with
    | true => simp [hcfe]
    | false =>
        have halg2 : effective_algorithm h.alg key.alg ∉ supported_algorithms := by
          simpa using halg
        simp [hcfe, halg2]
  refine ⟨fun hcf => by simpa using hbase false hcf,
    fun hcf => by simpa using hbase true hcf, ?_⟩
  cases hcf : algs_conflict h.alg key.alg with
  | true => rw [hbase true hcf]; rfl
  | false => rw [hbase false hcf]; rfl

theorem verify_alg_allowlist_witness :
    verify_with_keys ⟨some ⟨some "k1", some "HS256"⟩, true, .invalidSignature⟩
      [⟨some "k1", some "HS256"⟩] =
      (.error ⟨.unsupportedAlgorithm, 401, "Token verification failed"⟩, false) :=
  (verify_alg_allowlist ⟨some ⟨some "k1", some "HS256"⟩, true, .invalidSignature⟩
    [⟨some "k1", some "HS256"⟩] ⟨some "k1", some "HS256"⟩ ⟨some "k1", some "HS256"⟩
    rfl rfl rfl (by decide)).1 (by decide)

/-! ## Claim C8 -/

/-- C8 is corrected by this counterexample: a claim set whose sub claim is
present but equal to the empty string is rejected by the falsy check at
line 350, so resolution does not succeed although a subject claim is
contained, and it fails although the subject claim is not absent. -/
theorem identity_resolution_cex :
    (⟨some "", some "e@x", none, none⟩ : TokenClaims).sub.isSome = true ∧
    identity_from_claims ⟨some "", some "e@x", none, none⟩ =
      .error ⟨.missingSubject, 401, "Token missing subject (sub) claim"⟩ :=
  ⟨rfl, rfl⟩

/-- C8 amended: for claims with a truthy (present and non-empty) sub,
resolution succeeds with the provider attributed by the ordered chain
app_metadata.provider when truthy, else user_metadata.provider when that key
is present, else the literal "email"; resolution fails with MissingSubject
exactly when the sub claim is falsy. -/
theorem identity_resolution (claims : TokenClaims) :
    (pyTruthy claims.sub = true → pyTruthy claims.app_metadata_provider = true →
      identity_from_claims claims =
        .ok ⟨claims.app_metadata_provider.getD "", claims.sub.getD "", claims.email⟩) ∧
    (pyTruthy claims.sub = true → pyTruthy claims.app_metadata_provider = false →
      ∀ p, claims.user_metadata_provider = some p →
        identity_from_claims claims = .ok ⟨p, claims.sub.getD "", claims.email⟩) ∧
    (pyTruthy claims.sub = true → pyTruthy claims.app_metadata_provider = false →
      claims.user_metadata_provider = none →
        identity_from_claims claims = .ok ⟨"email", claims.sub.getD "", claims.email⟩) ∧
    (pyTruthy claims.sub = false →
      identity_from_claims claims =
        .error ⟨.missingSubject, 401, "Token missing subject (sub) claim"⟩) := by
  refine ⟨fun hs ha => ?_, fun hs ha p hp => ?_, fun hs ha hp => ?_, fun hs => ?_⟩ <;>
    simp [identity_from_claims, hs, *]

theorem identity_resolution_witness :
    identity_from_claims ⟨some "sub1", some "e@x", some "google", none⟩ =
      .ok ⟨"google", "sub1", some "e@x"⟩ :=
  (identity_resolution ⟨some "sub1", some "e@x", some "google", none⟩).1 rfl rfl

/-! ## Claim C9 -/

/-- C9: get_current_user_optional is total (it never propagates an error: its
codomain is `Option User`, every inner exception path being mapped to `none`
by the definition); it returns `none` for absent or empty credentials, for
any token that fails verification, for verified claims lacking a sub, and for
a sub that does not parse as a UUID; and it never creates a row — any user it
returns was already present in the database, which it only reads. -/
theorem optional_auth_never_raises (credentials : Option String)
    (inp : VerifyInput) (st : JwksState) (now : Nat) (o : FetchOutcome) (db : DB) :
    (credentials = none →
      get_current_user_optional credentials inp st now o db = none) ∧
    (credentials = some "" →
      get_current_user_optional credentials inp st now o db = none) ∧
    (∀ e, (verify_supabase_token inp st now o).1 = .error e →
      get_current_user_optional credentials inp st now o db = none) ∧
    (∀ claims, (verify_supabase_token inp st now o).1 = .ok claims →
      claims.sub = none →
      get_current_user_optional credentials inp st now o db = none) ∧
    (∀ claims s, (verify_supabase_token inp st now o).1 = .ok claims →
      claims.sub = some s → pyUuidCanon s = none →
      get_current_user_optional credentials inp st now o db = none) ∧
    (∀ u, get_current_user_optional credentials inp st now o db = some u →
      u ∈ db.rows) := by
  refine ⟨fun hc => by simp [get_current_user_optional, hc],
    fun hc => by simp [get_current_user_optional, hc], ?_, ?_, ?_, ?_⟩
  · intro e he
    cases credentials with
    | none => rfl
    | some tok =>
        by_cases ht : tok = "" <;>
          simp [get_current_user_optional, ht, he]
  · intro claims hc hs
    cases credentials with
    | none => rfl
    | some tok =>
        by_cases ht : tok = "" <;>
          simp [get_current_user_optional, ht, hc, hs, pyTruthy]
  · intro claims s hc hs hu
    cases credentials with
    | none => rfl
    | some tok =>
        by_cases ht : tok = "" <;> by_cases hempty : s = "" <;>
          simp [get_current_user_optional, ht, hc, hs, hempty, pyTruthy,
            _normalize_supabase_uid, hu]
  · intro u hu
    unfold get_current_user_optional at hu
    split at hu
    · exact absurd hu (by simp)
    · split at hu
      · exact absurd hu (by simp)
      · split at hu
        · exact absurd hu (by simp)
        · split at hu
          · exact absurd hu (by simp)
          · split at hu
            · exact absurd hu (by simp)
            · exact List.mem_of_find?_eq_some hu

theorem optional_auth_never_raises_witness :
    get_current_user_optional (some "tok") ⟨none, true, .invalidSignature⟩
      ⟨some [⟨some "k1", some "ES256"⟩], 0⟩ 0 .httpError ⟨[], 0⟩ = none :=
  (optional_auth_never_raises (some "tok") ⟨none, true, .invalidSignature⟩
    ⟨some [⟨some "k1", some "ES256"⟩], 0⟩ 0 .httpError ⟨[], 0⟩).2.2.1
    ⟨.malformedHeader, 401, "Token verification failed"⟩ rfl

/-! ## Claim C2 -/

/-- C2: when the insert of a new user fails with a uniqueness-constraint
violation, get_or_create_user_for_supabase_uid rolls the insert back (the
returned state carries no new row), re-queries by external uid, and returns
the row that re-query finds; when the re-query finds no row, the original
IntegrityError propagates to the caller.  `dbQ` is the state the initial
lookup saw and `dbI` the state the commit ran against. -/
theorem get_or_create_race_recovery (dbQ dbI : DB) (uid : String)
    (provider email : Option String)
    (hq : dbQ.queryByUid uid = none)
    (hconf : insertConflicts dbI (newUserFor dbI uid provider email) = true) :
    (∀ u, dbI.queryByUid uid = some u →
      get_or_create_at dbQ dbI uid provider email = .ok (u, dbI)) ∧
    (dbI.queryByUid uid = none →
      get_or_create_at dbQ dbI uid provider email = .error .integrityError) := by
  constructor
  · intro u hu
    simp [get_or_create_at, hq, hconf, hu]
  · intro hu
    simp [get_or_create_at, hq, hconf, hu]

theorem get_or_create_race_recovery_witness :
    get_or_create_at ⟨[], 0⟩ ⟨[⟨0, "u1", some "email", none, none, none⟩], 1⟩
      "u1" none none =
      .ok (⟨0, "u1", some "email", none, none, none⟩,
        ⟨[⟨0, "u1", some "email", none, none, none⟩], 1⟩) :=
  (get_or_create_race_recovery ⟨[], 0⟩
    ⟨[⟨0, "u1", some "email", none, none, none⟩], 1⟩ "u1" none none
    rfl (by decide)).1 ⟨0, "u1", some "email", none, none, none⟩ rfl

/-! ## Claim C4 -/

/-- C4: if a cached KeySet exists and `now - fetched_at < TTL`, fetch_jwks
returns the cached KeySet with the cache state unchanged and performs no
network fetch; consequently, starting cold, a successful call at `t1` fetches,
a second call before `t1 + TTL` returns the same keys without fetching, and a
call at or after `t1 + TTL` fetches again. -/
theorem fetch_jwks_ttl (st : JwksState) (cached keys : List Jwk)
    (t1 t2 t3 : Nat) (o o2 o3 : FetchOutcome) :
    (st.jwksCache = some cached → t1 - st.jwksCacheTime < JWKS_CACHE_TTL →
      fetch_jwks st t1 o = ⟨.ok cached, st, false⟩) ∧
    (st.jwksCache = none → t2 - t1 < JWKS_CACHE_TTL → JWKS_CACHE_TTL ≤ t3 - t1 →
      (fetch_jwks st t1 (.ok keys)).didNetworkFetch = true ∧
      fetch_jwks (fetch_jwks st t1 (.ok keys)).state t2 o2 =
        ⟨.ok keys, (fetch_jwks st t1 (.ok keys)).state, false⟩ ∧
      (fetch_jwks (fetch_jwks st t1 (.ok keys)).state t3 o3).didNetworkFetch = true) := by
  constructor
  · intro h1 h2
    simp [fetch_jwks, h1, h2]
  · intro h1 h2 h3
    have e1 : fetch_jwks st t1 (.ok keys) =
        ⟨.ok keys, ⟨some keys, t1⟩, true⟩ := by
      simp [fetch_jwks, fetch_jwks_refresh, h1]
    refine ⟨by rw [e1], ?_, ?_⟩
    · rw [e1]
      simp [fetch_jwks, h2]
    · rw [e1]
      simp only [fetch_jwks, Nat.not_lt.mpr h3, if_false]
      exact fetch_jwks_refresh_fetches _ _ _

theorem fetch_jwks_ttl_witness :
    (fetch_jwks ⟨none, 0⟩ 0 (.ok [⟨some "k1", some "ES256"⟩])).didNetworkFetch = true ∧
    fetch_jwks (fetch_jwks ⟨none, 0⟩ 0 (.ok [⟨some "k1", some "ES256"⟩])).state 1 .httpError =
      ⟨.ok [⟨some "k1", some "ES256"⟩],
        (fetch_jwks ⟨none, 0⟩ 0 (.ok [⟨some "k1", some "ES256"⟩])).state, false⟩ ∧
    (fetch_jwks (fetch_jwks ⟨none, 0⟩ 0 (.ok [⟨some "k1", some "ES256"⟩])).state 600
      .malformed).didNetworkFetch = true :=
  (fetch_jwks_ttl ⟨none, 0⟩ [] [⟨some "k1", some "ES256"⟩] 0 1 600
    .httpError .httpError .malformed).2 rfl (by decide) (by decide)

/-! ## Claim C5 -/

/-- C5: when a refresh attempt fails — network error or malformed body — a
previously fetched KeySet is served instead of the error; with no previous
KeySet the call fails with the classified 503 key-discovery errors, whose
status differs from the 401 used for every authentication failure. -/
theorem fetch_jwks_stale_fallback (st : JwksState) (cached : List Jwk) (now : Nat) :
    (st.jwksCache = some cached →
      (fetch_jwks st now .httpError).result = .ok cached ∧
      (fetch_jwks st now .malformed).result = .ok cached) ∧
    (st.jwksCache = none →
      (fetch_jwks st now .httpError).result =
        .error ⟨.jwksHttpError, 503, "Unable to verify token: JWKS endpoint unavailable"⟩ ∧
      (fetch_jwks st now .malformed).result =
        .error ⟨.jwksMalformed, 503, "Unable to verify token: JWKS fetch failed"⟩ ∧
      (503 : Nat) ≠ 401) := by
  constructor
  · intro h1
    constructor <;>
      · simp only [fetch_jwks, h1]
        split <;> simp [fetch_jwks_refresh, h1]
  · intro h1
    refine ⟨?_, ?_, by decide⟩ <;> simp [fetch_jwks, fetch_jwks_refresh, h1]

theorem fetch_jwks_stale_fallback_witness :
    (fetch_jwks ⟨some [⟨some "k1", some "ES256"⟩], 0⟩ 9999 .httpError).result =
      .ok [⟨some "k1", some "ES256"⟩] ∧
    (fetch_jwks ⟨some [⟨some "k1", some "ES256"⟩], 0⟩ 9999 .malformed).result =
      .ok [⟨some "k1", some "ES256"⟩] :=
  (fetch_jwks_stale_fallback ⟨some [⟨some "k1", some "ES256"⟩], 0⟩
    [⟨some "k1", some "ES256"⟩] 9999).1 rfl

/-! ## Claim C10 -/

/-- C10: every failing refresh leaves the cache state (keys and timestamp)
exactly as it was, and any call made when the cache is at least TTL old
attempts a network fetch, whatever the outcome. -/
theorem fetch_jwks_failure_keeps_state (st : JwksState) (now : Nat) (o : FetchOutcome) :
    (fetch_jwks st now .httpError).state = st ∧
    (fetch_jwks st now .malformed).state = st ∧
    (JWKS_CACHE_TTL ≤ now - st.jwksCacheTime →
      (fetch_jwks st now o).didNetworkFetch = true) := by
  refine ⟨?_, ?_, ?_⟩
  · cases h : st.jwksCache with
    | none =>
        simp only [fetch_jwks, h]
        exact (fetch_jwks_refresh_failure_state st now).1
    | some cached =>
        simp only [fetch_jwks, h]
        split
        · rfl
        · exact (fetch_jwks_refresh_failure_state st now).1
  · cases h : st.jwksCache with
    | none =>
        simp only [fetch_jwks, h]
        exact (fetch_jwks_refresh_failure_state st now).2
    | some cached =>
        simp only [fetch_jwks, h]
        split
        · rfl
        · exact (fetch_jwks_refresh_failure_state st now).2
  · intro hexp
    cases h : st.jwksCache with
    | none =>
        simp only [fetch_jwks, h]
        exact fetch_jwks_refresh_fetches _ _ _
    | some cached =>
        simp only [fetch_jwks, h, Nat.not_lt.mpr hexp, if_false]
        exact fetch_jwks_refresh_fetches _ _ _

theorem fetch_jwks_failure_keeps_state_witness :
    (fetch_jwks ⟨some [⟨some "k1", some "ES256"⟩], 0⟩ 600 .httpError).state =
      ⟨some [⟨some "k1", some "ES256"⟩], 0⟩ ∧
    (fetch_jwks ⟨some [⟨some "k1", some "ES256"⟩], 0⟩ 600
      .httpError).didNetworkFetch = true :=
  ⟨(fetch_jwks_failure_keeps_state ⟨some [⟨some "k1", some "ES256"⟩], 0⟩ 600
      .httpError).1,
    (fetch_jwks_failure_keeps_state ⟨some [⟨some "k1", some "ES256"⟩], 0⟩ 600
      .httpError).2.2 (by decide)⟩

/-! ## Supporting lemmas for the provisioning claims -/

theorem distinctRow_symm : Symmetric distinctRow := by
  intro a b hab
  obtain ⟨h1, h2, h3, h4⟩ := hab
  refine ⟨h1.symm, h2.symm, ?_, ?_⟩
  · rcases h3 with h | h | h
    · exact Or.inr (Or.inl h)
    · exact Or.inl h
    · exact Or.inr (Or.inr h.symm)
  · rcases h4 with h | h | h
    · exact Or.inr (Or.inl h)
    · exact Or.inl h
    · exact Or.inr (Or.inr h.symm)

theorem wf_distinct {db : DB} (hwf : db.wf) {r u : User} (hr : r ∈ db.rows)
    (hu : u ∈ db.rows) (hne : r ≠ u) : distinctRow r u :=
  hwf.1.forall distinctRow_symm hr hu hne

theorem queryByUid_some {db : DB} {uid : String} {u : User}
    (h : db.queryByUid uid = some u) : u ∈ db.rows ∧ u.external_auth_uid = uid :=
  ⟨List.mem_of_find?_eq_some h, by simpa using List.find?_some h⟩

theorem queryByUid_none {db : DB} {uid : String}
    (h : db.queryByUid uid = none) : ∀ r ∈ db.rows, r.external_auth_uid ≠ uid := by
  intro r hr
  simpa using List.find?_eq_none.mp h r hr

theorem backfill_email (u : User) (p e : Option String) :
    (backfillUser u p e).1.email = u.email.or e := by
  obtain ⟨i, uid, prov, em, apid, onb⟩ := u
  cases em <;> cases e <;> rfl

theorem backfill_provider (u : User) (p e : Option String) :
    (backfillUser u p e).1.external_auth_provider = u.external_auth_provider.or p := by
  obtain ⟨i, uid, prov, em, apid, onb⟩ := u
  cases prov <;> cases p <;> rfl

theorem backfill_frame (u : User) (p e : Option String) :
    (backfillUser u p e).1.id = u.id ∧
    (backfillUser u p e).1.external_auth_uid = u.external_auth_uid ∧
    (backfillUser u p e).1.auth_provider_id = u.auth_provider_id ∧
    (backfillUser u p e).1.onboarding_completed_at = u.onboarding_completed_at :=
  ⟨rfl, rfl, rfl, rfl⟩

theorem backfill_not_updated (u : User) (p e : Option String)
    (h : (backfillUser u p e).2 = false) : (backfillUser u p e).1 = u := by
  obtain ⟨i, uid, prov, em, apid, onb⟩ := u
  unfold backfillUser at h ⊢
  cases em <;> cases e <;> cases prov <;> cases p <;> simp_all

theorem backfill_idem (u : User) (p e : Option String) :
    backfillUser (backfillUser u p e).1 p e = ((backfillUser u p e).1, false) := by
  obtain ⟨i, uid, prov, em, apid, onb⟩ := u
  cases em <;> cases e <;> cases prov <;> cases p <;> rfl

theorem backfill_new (db : DB) (uid : String) (p e : Option String) :
    backfillUser (newUserFor db uid p e) p e = (newUserFor db uid p e, false) := by
  cases e <;> cases p <;> rfl

theorem count_uid_one (rows : List User) (uid : String) (u : User)
    (hpw : rows.Pairwise fun a b => a.external_auth_uid ≠ b.external_auth_uid)
    (hu : u ∈ rows) (huid : u.external_auth_uid = uid) :
    (rows.map User.external_auth_uid).count uid = 1 := by
  induction rows with
  | nil => cases hu
  | cons a t ih =>
      rw [List.map_cons, List.count_cons]
      rcases List.mem_cons.mp hu with rfl | hmem
      · have hzero : (t.map User.external_auth_uid).count uid = 0 := by
          rw [List.count_eq_zero]
          intro hin
          obtain ⟨b, hb, hbe⟩ := List.mem_map.mp hin
          exact (List.pairwise_cons.mp hpw).1 b hb (by rw [huid, hbe])
        rw [hzero, huid]
        simp
      · have hne : a.external_auth_uid ≠ uid := fun hcontra =>
          (List.pairwise_cons.mp hpw).1 u hmem (by rw [hcontra, huid])
        rw [ih (List.pairwise_cons.mp hpw).2 hmem]
        simp [hne]

theorem updateRow_map_uid (db : DB) (u u1 : User) (hwf : db.wf)
    (hu : u ∈ db.rows) (hid : u1.id = u.id)
    (huid : u1.external_auth_uid = u.external_auth_uid) :
    (db.updateRow u1).rows.map User.external_auth_uid =
      db.rows.map User.external_auth_uid := by
  show (db.rows.map fun r => if r.id == u1.id then u1 else r).map User.external_auth_uid
      = db.rows.map User.external_auth_uid
  rw [List.map_map]
  refine List.map_congr_left fun r hr => ?_
  by_cases hEq : r.id = u1.id
  · have hru : r = u := by
      by_contra hne
      exact (wf_distinct hwf hr hu hne).1 (hEq.trans hid)
    simp [Function.comp, hEq, hru, hid, huid]
  · simp [Function.comp, hEq]

theorem find?_update_of_found (rows : List User) (uid : String) (u u1 : User)
    (hpw : rows.Pairwise distinctRow)
    (hq : rows.find? (fun r => r.external_auth_uid == uid) = some u)
    (hid : u1.id = u.id) (huid : u1.external_auth_uid = u.external_auth_uid) :
    (rows.map fun r => if r.id == u1.id then u1 else r).find?
      (fun r => r.external_auth_uid == uid) = some u1 := by
  induction rows with
  | nil => simp at hq
  | cons a t ih =>
      rw [List.map_cons]
      by_cases ha : a.external_auth_uid = uid
      · rw [List.find?_cons_of_pos _ (by simpa using ha)] at hq
        have hau : a = u := by simpa using hq
        have h1 : (a.id == u1.id) = true := by
          rw [beq_iff_eq, hau, hid]
        rw [if_pos h1]
        exact List.find?_cons_of_pos _ (by rw [beq_iff_eq, huid, ← hau]; exact ha)
      · rw [List.find?_cons_of_neg _ (by simpa using ha)] at hq
        have hut : u ∈ t := List.mem_of_find?_eq_some hq
        have hda : distinctRow a u := (List.pairwise_cons.mp hpw).1 u hut
        have h1 : (a.id == u1.id) = false := by
          rw [hid]
          exact beq_false_of_ne hda.1
        rw [if_neg (by simp [h1])]
        rw [List.find?_cons_of_neg _ (by simpa using ha)]
        exact ih (List.pairwise_cons.mp hpw).2 hq

theorem insertConflicts_false_of (db : DB) (uid : String) (p e : Option String)
    (hwf : db.wf) (hq : db.queryByUid uid = none) (hcl : noEmailClash db uid e) :
    insertConflicts db (newUserFor db uid p e) = false := by
  rw [insertConflicts, List.any_eq_false]
  intro r hr
  simp only [newUserFor, Bool.or_eq_true, Bool.and_eq_true, beq_iff_eq,
    Option.isSome_none, Bool.false_eq_true, false_and, or_false, not_or]
  refine ⟨⟨?_, ?_⟩, ?_⟩
  · exact Nat.ne_of_lt (hwf.2 r hr)
  · exact queryByUid_none hq r hr
  · rintro ⟨hs, hee⟩
    exact hcl r hr (queryByUid_none hq r hr) hs hee

theorem updateConflicts_false_of (db : DB) (uid : String) (e : Option String)
    (u u1 : User) (hwf : db.wf) (hq : db.queryByUid uid = some u)
    (hcl : noEmailClash db uid e)
    (hid : u1.id = u.id) (huid : u1.external_auth_uid = u.external_auth_uid)
    (hemail : u1.email = u.email.or e)
    (hapid : u1.auth_provider_id = u.auth_provider_id) :
    updateConflicts db u1 = false := by
  obtain ⟨humem, huuid⟩ := queryByUid_some hq
  rw [updateConflicts, List.any_eq_false]
  intro r hr
  simp only [Bool.and_eq_true, bne_iff_ne, ne_eq, Bool.or_eq_true, beq_iff_eq,
    not_and, not_or]
  intro hrid
  have hrne : r ≠ u := fun hc => hrid (by rw [hc, hid])
  have hd := wf_distinct hwf hr humem hrne
  refine ⟨⟨?_, ?_⟩, ?_⟩
  · rw [huid]; exact hd.2.1
  · intro hs hee
    cases hue : u.email with
    | some v =>
        have hu1 : u1.email = some v := by rw [hemail, hue]; rfl
        rcases hd.2.2.1 with hx | hx | hx
        · rw [hx, hu1] at hee
          simp at hee
        · rw [hue] at hx
          simp at hx
        · apply hx
          rw [hee, hu1, ← hue]
    | none =>
        have hre : r.email = e := by rw [hee, hemail, hue]; rfl
        have hruid : r.external_auth_uid ≠ uid := by
          rw [← huuid]; exact hd.2.1
        have hes : e.isSome = true := by
          rw [hemail, hue] at hs
          simpa [Option.or] using hs
        exact hcl r hr hruid hes hre
  · intro hs hee
    rw [hapid] at hs hee
    rcases hd.2.2.2 with hx | hx | hx
    · rw [← hee, hx] at hs
      simp at hs
    · rw [hx] at hs
      simp at hs
    · exact hx hee

/-- Canonical result of a sequential get_or_create call whose initial lookup
found a row, under the well-formedness and email-clash-freedom
preconditions: the backfilled row, with the state updated only when a field
actually changed. -/
theorem goc_found_result (db : DB) (uid : String) (provider email : Option String)
    (u : User) (hwf : db.wf) (hq : db.queryByUid uid = some u)
    (hcl : noEmailClash db uid email) :
    get_or_create_user_for_supabase_uid db uid provider email =
      .ok ((backfillUser u provider email).1,
        if (backfillUser u provider email).2 then
          db.updateRow (backfillUser u provider email).1 else db) := by
  have hbf := backfill_frame u provider email
  have hbe := backfill_email u provider email
  by_cases hupd : (backfillUser u provider email).2 = true
  · have hconf := updateConflicts_false_of db uid email u _ hwf hq hcl
      hbf.1 hbf.2.1 hbe hbf.2.2.1
    unfold get_or_create_user_for_supabase_uid get_or_create_at
    simp [hq, hupd, hconf]
  · have hupd2 : (backfillUser u provider email).2 = false := by simpa using hupd
    have hbid := backfill_not_updated u provider email hupd2
    unfold get_or_create_user_for_supabase_uid get_or_create_at
    simp [hq, hupd2, hbid]

/-- Canonical result of a sequential get_or_create call whose initial lookup
missed, under the same preconditions: the freshly inserted row. -/
theorem goc_miss_result (db : DB) (uid : String) (provider email : Option String)
    (hwf : db.wf) (hq : db.queryByUid uid = none) (hcl : noEmailClash db uid email) :
    get_or_create_user_for_supabase_uid db uid provider email =
      .ok (newUserFor db uid provider email,
        db.insertRow (newUserFor db uid provider email)) := by
  have hconf := insertConflicts_false_of db uid provider email hwf hq hcl
  unfold get_or_create_user_for_supabase_uid get_or_create_at
  simp [hq, hconf]

/-! ## Claim C3 -/

/-- C3 is corrected by this counterexample: the users table also carries a
legacy unique constraint on `email` (src/app/models/user.py line 15), so for
a found row with null email, committing the backfill of an email already held
by a different row raises IntegrityError — uncaught on the backfill path —
instead of setting the stored email. -/
theorem get_or_create_backfill_cex :
    DB.wf ⟨[⟨0, "u0", none, none, none, none⟩,
      ⟨1, "u1", some "email", some "e", none, none⟩], 2⟩ ∧
    DB.queryByUid ⟨[⟨0, "u0", none, none, none, none⟩,
      ⟨1, "u1", some "email", some "e", none, none⟩], 2⟩ "u0" =
      some ⟨0, "u0", none, none, none, none⟩ ∧
    get_or_create_user_for_supabase_uid ⟨[⟨0, "u0", none, none, none, none⟩,
      ⟨1, "u1", some "email", some "e", none, none⟩], 2⟩ "u0" none (some "e") =
      .error .integrityError :=
  ⟨by decide, rfl, rfl⟩

/-- C3 amended: provided no row with a different external uid already holds
the Identity's non-null email (the legacy unique email column makes the
backfill commit fail otherwise), get_or_create on a found row succeeds and
backfills email and external provider each only when currently null, changes
no other field of the row, and touches no other row. -/
theorem get_or_create_backfill (db : DB) (uid : String)
    (provider email : Option String) (u : User)
    (hwf : db.wf) (hq : db.queryByUid uid = some u)
    (hcl : noEmailClash db uid email) :
    isOkB (get_or_create_user_for_supabase_uid db uid provider email) = true ∧
    ∀ u1 db1, get_or_create_user_for_supabase_uid db uid provider email = .ok (u1, db1) →
      u1.email = u.email.or email ∧
      u1.external_auth_provider = u.external_auth_provider.or provider ∧
      u1.id = u.id ∧
      u1.external_auth_uid = u.external_auth_uid ∧
      u1.auth_provider_id = u.auth_provider_id ∧
      u1.onboarding_completed_at = u.onboarding_completed_at ∧
      db1.nextId = db.nextId ∧
      db1.rows.length = db.rows.length ∧
      (∀ r ∈ db.rows, r.id ≠ u.id → r ∈ db1.rows) := by
  have hres := goc_found_result db uid provider email u hwf hq hcl
  have hbf := backfill_frame u provider email
  constructor
  · rw [hres]; rfl
  · intro u1 db1 h1
    rw [hres] at h1
    have h2 : (backfillUser u provider email).1 = u1 ∧
        (if (backfillUser u provider email).2 then
          db.updateRow (backfillUser u provider email).1 else db) = db1 := by
      simpa using h1
    obtain ⟨hu1, hdb1⟩ := h2
    subst hu1
    subst hdb1
    refine ⟨backfill_email u provider email, backfill_provider u provider email,
      hbf.1, hbf.2.1, hbf.2.2.1, hbf.2.2.2, ?_, ?_, ?_⟩
    · split <;> rfl
    · split <;> simp [DB.updateRow]
    · intro r hr hrid
      split
      · show r ∈ db.rows.map fun s =>
          if s.id == (backfillUser u provider email).1.id
            then (backfillUser u provider email).1 else s
        have hfr : (fun s =>
            if s.id == (backfillUser u provider email).1.id
              then (backfillUser u provider email).1 else s) r = r := by
          have hc : (r.id == (backfillUser u provider email).1.id) = false := by
            rw [hbf.1]
            exact beq_false_of_ne hrid
          simp [hc]
        have hm := List.mem_map_of_mem (fun s =>
          if s.id == (backfillUser u provider email).1.id
            then (backfillUser u provider email).1 else s) hr
        rw [hfr] at hm
        exact hm
      · exact hr

theorem get_or_create_backfill_witness :
    isOkB (get_or_create_user_for_supabase_uid ⟨[⟨0, "u0", none, none, none, none⟩], 1⟩
      "u0" (some "google") (some "e")) = true ∧
    (⟨0, "u0", some "google", some "e", none, none⟩ : User).email =
      (⟨0, "u0", none, none, none, none⟩ : User).email.or (some "e") :=
  have h := get_or_create_backfill ⟨[⟨0, "u0", none, none, none, none⟩], 1⟩ "u0"
    (some "google") (some "e") ⟨0, "u0", none, none, none, none⟩
    (by decide) rfl (by decide)
  ⟨h.1, (h.2 ⟨0, "u0", some "google", some "e", none, none⟩
    ⟨[⟨0, "u0", some "google", some "e", none, none⟩], 1⟩ rfl).1⟩

/-! ## Claim C1 -/

/-- C1 is corrected by this counterexample: with one stored row holding email
"e" under uid "u0", a first call for the never-seen uid "u1" carrying the same
email hits the legacy unique email constraint on insert, the recovery
re-query finds no row for "u1", and the IntegrityError propagates — no
Principal is returned at all, and the well-formed starting state is
reachable (a provider-side account deleted and re-registered keeps its email
but changes its subject). -/
theorem get_or_create_idempotent_cex :
    DB.wf ⟨[⟨0, "u0", some "email", some "e", none, none⟩], 1⟩ ∧
    get_or_create_user_for_supabase_uid
      ⟨[⟨0, "u0", some "email", some "e", none, none⟩], 1⟩
      "u1" (some "google") (some "e") = .error .integrityError :=
  ⟨by decide, rfl⟩

/-- C1 amended: provided no row with a different external uid holds the
Identity's non-null email, two sequential get_or_create calls with the same
Identity both succeed, the second returns exactly the row and state produced
by the first (hence the same internal id both times), and the final state
holds exactly one row whose external uid equals the Identity's. -/
theorem get_or_create_idempotent (db : DB) (uid : String)
    (provider email : Option String)
    (hwf : db.wf) (hcl : noEmailClash db uid email) :
    isOkB (get_or_create_user_for_supabase_uid db uid provider email) = true ∧
    ∀ u1 db1, get_or_create_user_for_supabase_uid db uid provider email = .ok (u1, db1) →
      get_or_create_user_for_supabase_uid db1 uid provider email = .ok (u1, db1) ∧
      u1.external_auth_uid = uid ∧
      (db1.rows.map User.external_auth_uid).count uid = 1 := by
  cases hq : db.queryByUid uid with
  | some u =>
      have hres := goc_found_result db uid provider email u hwf hq hcl
      have hbf := backfill_frame u provider email
      obtain ⟨humem, huuid⟩ := queryByUid_some hq
      constructor
      · rw [hres]; rfl
      · intro u1 db1 h1
        rw [hres] at h1
        have h2 : (backfillUser u provider email).1 = u1 ∧
            (if (backfillUser u provider email).2 then
              db.updateRow (backfillUser u provider email).1 else db) = db1 := by
          simpa using h1
        obtain ⟨hu1, hdb1⟩ := h2
        subst hu1
        subst hdb1
        have huid1 : (backfillUser u provider email).1.external_auth_uid = uid := by
          rw [hbf.2.1, huuid]
        by_cases hupd : (backfillUser u provider email).2 = true
        · have hq2 : (db.updateRow (backfillUser u provider email).1).queryByUid uid =
              some (backfillUser u provider email).1 :=
            find?_update_of_found db.rows uid u _ hwf.1 hq hbf.1 hbf.2.1
          refine ⟨?_, huid1, ?_⟩
          · rw [if_pos hupd]
            unfold get_or_create_user_for_supabase_uid get_or_create_at
            simp [hq2, backfill_idem, hupd]
          · rw [if_pos hupd]
            rw [updateRow_map_uid db u _ hwf humem hbf.1 hbf.2.1]
            exact count_uid_one db.rows uid u (hwf.1.imp fun h => h.2.1) humem huuid
        · have hupd2 : (backfillUser u provider email).2 = false := by simpa using hupd
          have hbid := backfill_not_updated u provider email hupd2
          refine ⟨?_, huid1, ?_⟩
          · rw [if_neg (by simp [hupd2])]
            rw [hres]
            rw [if_neg (by simp [hupd2])]
          · rw [if_neg (by simp [hupd2])]
            exact count_uid_one db.rows uid u (hwf.1.imp fun h => h.2.1) humem huuid
  | none =>
      have hres := goc_miss_result db uid provider email hwf hq hcl
      constructor
      · rw [hres]; rfl
      · intro u1 db1 h1
        rw [hres] at h1
        have h2 : newUserFor db uid provider email = u1 ∧
            db.insertRow (newUserFor db uid provider email) = db1 := by
          simpa using h1
        obtain ⟨hu1, hdb1⟩ := h2
        subst hu1
        subst hdb1
        have hq2 : (db.insertRow (newUserFor db uid provider email)).queryByUid uid =
            some (newUserFor db uid provider email) := by
          show (db.rows ++ [newUserFor db uid provider email]).find?
            (fun r => r.external_auth_uid == uid) = some (newUserFor db uid provider email)
          rw [List.find?_append]
          have hnone : db.rows.find? (fun r => r.external_auth_uid == uid) = none := hq
          rw [hnone]
          simp [newUserFor]
        refine ⟨?_, rfl, ?_⟩
        · unfold get_or_create_user_for_supabase_uid get_or_create_at
          simp [hq2, backfill_new]
        · show ((db.rows ++ [newUserFor db uid provider email]).map
            User.external_auth_uid).count uid = 1
          rw [List.map_append, List.count_append]
          have hzero : (db.rows.map User.external_auth_uid).count uid = 0 := by
            rw [List.count_eq_zero]
            intro hin
            obtain ⟨b, hb, hbe⟩ := List.mem_map.mp hin
            exact queryByUid_none hq b hb hbe
          rw [hzero]
          simp [newUserFor]

theorem get_or_create_idempotent_witness :
    isOkB (get_or_create_user_for_supabase_uid ⟨[], 0⟩ "u1"
      (some "google") (some "e")) = true ∧
    get_or_create_user_for_supabase_uid
      ⟨[⟨0, "u1", some "google", some "e", none, none⟩], 1⟩ "u1"
      (some "google") (some "e") =
      .ok (⟨0, "u1", some "google", some "e", none, none⟩,
        ⟨[⟨0, "u1", some "google", some "e", none, none⟩], 1⟩) :=
  have h := get_or_create_idempotent ⟨[], 0⟩ "u1" (some "google") (some "e")
    (by decide) (by decide)
  ⟨h.1, (h.2 ⟨0, "u1", some "google", some "e", none, none⟩
    ⟨[⟨0, "u1", some "google", some "e", none, none⟩], 1⟩ rfl).1⟩

end PickRight
